import Mathlib

/-!
Shallow embedding of the replication lifecycle core of the
`terraform-provider-vault` fork: the primary/secondary replication
configuration resources, the secondary-token resource, and the
health-polling convergence wait (`waitForReplication`).

Go maps decoded from JSON are modelled as association lists of
`String × JVal`; the `Logical().Read` / `Logical().Write`
results of the Vault API client are modelled as `Except String (Option ...)` (transport error, or a
possibly-nil response).  A Go run-time panic caused by an unchecked type
assertion (`x.(string)`, `x.([]interface{})`) or by dereferencing a nil
response is modelled as a fatal error value (`RepError.malformed` naming the
offending field, or `RepError.nilDeref`), so every embedded operation is
total.  Provider-client acquisition (`provider.GetClient`) and the
declarative schema layer are out of scope, as in the spec; the embedded
functions take the network outcomes they consume as explicit arguments.
-/

/-- A JSON value as produced by decoding a Vault API response body
(Go `interface{}` after `json.Unmarshal`). -/
inductive JVal where
  | null
  | str (s : String)
  | num (n : Int)
  | bool (b : Bool)
  | arr (xs : List JVal)
  | obj (fs : List (String × JVal))

/-- A decoded JSON object / Go `map[string]interface{}` (keys unique). -/
abbrev JObj := List (String × JVal)

/-- Key lookup in a decoded object: Go `data[k]`, `nil` when absent. -/
def jlookup (data : JObj) (k : String) : Option JVal :=
  match data with
  | [] => none
  | (k2, v) :: rest => if k2 = k then some v else jlookup rest k

/-- Error taxonomy of the embedded operations.  `transport` carries the
formatted message a Go function returns for a failed client call; `remote`
models the branches that reject a response carrying an `Errors` field;
`malformed` models the run-time panic of an unchecked type assertion,
naming the field whose value was absent or mistyped; `nilDeref` models a
nil-pointer dereference panic on a nil response; `convergenceTimeout`
models the error `waitForReplication` returns after exhausting its retry
budget, wrapping the path and the error of the last attempt. -/
inductive RepError where
  | transport (msg : String)
  | remote (context : String) (errs : JVal)
  | malformed (field : String)
  | nilDeref
  | convergenceTimeout (path : String) (last : String)

/-- Base path constant `replicationPath`. -/
def replicationPath : String := "/sys/replication/"

/-- Path builder `replicationPrimaryCreatePath`. -/
def replicationPrimaryCreatePath (typeValue : String) : String :=
  replicationPath ++ typeValue ++ "/primary/enable"

/-- Path builder `replicationPrimaryReadPath`. -/
def replicationPrimaryReadPath (typeValue : String) : String :=
  replicationPath ++ typeValue ++ "/status"

/-- Path builder `replicationPrimaryDeletePath`. -/
def replicationPrimaryDeletePath (typeValue : String) : String :=
  replicationPath ++ typeValue ++ "/primary/disable"

/-- Path builder `replicationSecondaryCreatePath`. -/
def replicationSecondaryCreatePath (typeValue : String) : String :=
  replicationPath ++ typeValue ++ "/secondary/enable"

/-- Path builder `replicationSecondaryReadPath`. -/
def replicationSecondaryReadPath (typeValue : String) : String :=
  replicationPath ++ typeValue ++ "/status"

/-- Path builder `replicationSecondaryDeletePath`. -/
def replicationSecondaryDeletePath (typeValue : String) : String :=
  replicationPath ++ typeValue ++ "/secondary/disable"

/-- Path builder `replicationTokenCreatePath`. -/
def replicationTokenCreatePath (typeValue : String) : String :=
  replicationPath ++ typeValue ++ "/primary/secondary-token"

/-- Path builder `replicationTokenDeletePath`. -/
def replicationTokenDeletePath (typeValue : String) : String :=
  replicationPath ++ typeValue ++ "/primary/revoke-secondary"

/- ------------------------------------------------------------------ -/
/- waitForReplication: the convergence wait                           -/
/- ------------------------------------------------------------------ -/

/-- The remapping at the top of `waitForReplication`:
`if state == "running" { state = "primary" }`. -/
def mapTargetState (state : String) : String :=
  if state = "running" then "primary" else state

/-- `healthQuery := fmt.Sprintf("replication_%s_mode", typeValue)`. -/
def healthQuery (typeValue : String) : String :=
  "replication_" ++ typeValue ++ "_mode"

/-- One attempt of the `retryRead` closure inside `waitForReplication`,
applied to the outcome of one `GET /v1/sys/health` request (transport
error, or the decoded JSON body).  Returns `none` when the attempt
succeeds (the health field `healthQ` holds the string `state`), otherwise
`some` of the error message the closure returns: the transport error-as-is,
or `"error waiting for replication"` when the field is absent, mistyped,
or holds a different value. -/
def retryRead (healthQ state : String) (resp : Except String JObj) : Option String :=
  match resp with
  | .error e => some e
  | .ok data =>
    match jlookup data healthQ with
    | some (JVal.str val) => if val = state then none else some "error waiting for replication"
    | _ => some "error waiting for replication"

/-- `backoff.NewConstantBackOff(1 * time.Second)`: the constant retry
interval, in nanoseconds (Go `time.Duration` units). -/
def constantBackOffInterval : Nat := 1000000000

/-- The retry loop of `backoff.RetryNotify` with
`backoff.WithMaxRetries(b, maxRetries)` (cenkalti/backoff v4): the
operation runs once, and after each failure the wrapped policy permits a
retry while fewer than `maxRetries` retries have been used, sleeping the
constant `interval` before each retry; exhaustion returns the last
error of the last attempt.  `op i` is the outcome of attempt `i` (numbered from 0);
the result is `(finalError?, attemptsMade, sleepsPerformed)`. -/
def retryLoop (op : Nat → Option String) (interval : Nat) : Nat → Nat → Option String × Nat × List Nat
  | i, 0 =>
    match op i with
    | none => (none, i + 1, [])
    | some e => (some e, i + 1, [])
  | i, r + 1 =>
    match op i with
    | none => (none, i + 1, [])
    | some _ =>
      let rest := retryLoop op interval (i + 1) r
      (rest.1, rest.2.1, interval :: rest.2.2)

/-- Outcome of one `waitForReplication` call: the returned error (if any),
how many health requests were issued, and the sleeps performed between
attempts. -/
structure WaitResult where
  outcome : Except RepError Unit
  attempts : Nat
  sleeps : List Nat

/-- `waitForReplication(typeValue, state, path, ...)`: maps the logical
target (`running` → `primary`), then runs the `retryRead` attempt under
`backoff.WithMaxRetries(backoff.NewConstantBackOff(1*time.Second), 10)`.
`health i` is the outcome of the `i`-th health request.  On exhaustion the
returned error wraps the path and the error of the last attempt
(`"error waiting replication at %s: %v"`). -/
def waitForReplication (typeValue state path : String)
    (health : Nat → Except String JObj) : WaitResult :=
  let st := mapTargetState state
  let hq := healthQuery typeValue
  let r := retryLoop (fun i => retryRead hq st (health i)) constantBackOffInterval 0 10
  match r.1 with
  | none => ⟨.ok (), r.2.1, r.2.2⟩
  | some e => ⟨.error (.convergenceTimeout path e), r.2.1, r.2.2⟩

/- ------------------------------------------------------------------ -/
/- Read operations (status projection)                                -/
/- ------------------------------------------------------------------ -/

/-- The comparison `resp.Data["mode"] == "disabled"` on a Go interface
value: true iff the field is present, is a string, and equals
`"disabled"`. -/
def isDisabledMode (rd : JObj) : Bool :=
  match jlookup rd "mode" with
  | some (JVal.str s) => s = "disabled"
  | _ => false

/-- The unchecked assertion `resp.Data[k].(string)`: the string value when
the field is present with string type; otherwise the assertion panics,
modelled as `RepError.malformed k`. -/
def getString (rd : JObj) (k : String) : Except RepError String :=
  match jlookup rd k with
  | some (JVal.str s) => .ok s
  | _ => .error (.malformed k)

/-- The unchecked assertion `resp.Data[k].([]interface{})`, modelled like
`getString`. -/
def getArr (rd : JObj) (k : String) : Except RepError (List JVal) :=
  match jlookup rd k with
  | some (JVal.arr xs) => .ok xs
  | _ => .error (.malformed k)

/-- The record `replicationPrimaryRead` persists via `d.Set`. -/
structure PrimaryRecord where
  primaryClusterAddr : String
  clusterId : String
  mode : String
  state : String
  knownSecondaries : List JVal
  secondaries : List JVal

/-- The record `replicationSecondaryRead` persists via `d.Set`. -/
structure SecondaryRecord where
  primaryClusterAddr : String
  clusterId : String
  mode : String
  state : String
  knownPrimaryClusterAddrs : List JVal
  primaries : List JVal

/-- `replicationPrimaryRead`, as a function of the `Logical().Read` outcome
on the status path (transport error, or the `Data` of a possibly-nil response).
A transport error is returned as-is; a nil response makes the subsequent
`resp.Data` accesses panic (`nilDeref`).  Otherwise `d.SetId("")` happens
exactly when `mode == "disabled"` (the `Bool` component), and the six
projected fields are extracted with unchecked type assertions, in source
order. -/
def replicationPrimaryRead (resp : Except String (Option JObj)) :
    Except RepError (Bool × PrimaryRecord) :=
  match resp with
  | .error e => .error (.transport e)
  | .ok none => .error .nilDeref
  | .ok (some rd) =>
    (getString rd "primary_cluster_addr").bind fun pca =>
    (getString rd "cluster_id").bind fun cid =>
    (getString rd "mode").bind fun md =>
    (getString rd "state").bind fun st =>
    (getArr rd "known_secondaries").bind fun ks =>
    (getArr rd "secondaries").bind fun secs =>
    .ok (isDisabledMode rd, ⟨pca, cid, md, st, ks, secs⟩)

/-- `replicationSecondaryRead`, modelled like `replicationPrimaryRead`
with the secondary-role field set (`known_primary_cluster_addrs`,
`primaries`). -/
def replicationSecondaryRead (resp : Except String (Option JObj)) :
    Except RepError (Bool × SecondaryRecord) :=
  match resp with
  | .error e => .error (.transport e)
  | .ok none => .error .nilDeref
  | .ok (some rd) =>
    (getString rd "primary_cluster_addr").bind fun pca =>
    (getString rd "cluster_id").bind fun cid =>
    (getString rd "mode").bind fun md =>
    (getString rd "state").bind fun st =>
    (getArr rd "known_primary_cluster_addrs").bind fun kp =>
    (getArr rd "primaries").bind fun pr =>
    .ok (isDisabledMode rd, ⟨pca, cid, md, st, kp, pr⟩)

/-- `replicationTokenRead`: reads the status path and only logs the body;
returns the read error, if any. -/
def replicationTokenRead (resp : Except String (Option JObj)) : Except RepError Unit :=
  match resp with
  | .error e => .error (.transport e)
  | .ok _ => .ok ()

/- ------------------------------------------------------------------ -/
/- Create / delete operations                                         -/
/- ------------------------------------------------------------------ -/

/-- One `Logical().Write` request: the path and the payload
(`none` models a nil Go map / nil body). -/
structure Call where
  path : String
  payload : Option JObj

/-- The `Logical().Write` collaborator: transport error, or a possibly-nil
`Data` map of a possibly-nil response. -/
abbrev WriteFn := String → Option JObj → Except String (Option JObj)

/-- The check `resp.Data["Errors"] != nil` (used by the delete and exists
functions): the `Errors` value when present and non-null. -/
def dataErrors (rd : JObj) : Option JVal :=
  match jlookup rd "Errors" with
  | some JVal.null => none
  | some v => some v
  | none => none

/-- Trace of one `replicationPrimaryCreate` run. -/
structure PrimaryCreateResult where
  writeCall : Call
  newId : Option String
  waitOutcome : Option WaitResult
  result : Except RepError (Bool × PrimaryRecord)

/-- `replicationPrimaryCreate`: builds the payload (the
`primary_cluster_addr` field only when the input is non-empty, otherwise a
nil map), writes to the enable path, rejects a transport error or a
response whose `Data` has an `Errors` key (presence check, comma-ok
idiom), sets the id to the path, runs `waitForReplication(typeValue,
"running", path, ...)` discarding its result, and returns
`replicationPrimaryRead` of the status read outcome `statusResp`. -/
def replicationPrimaryCreate (typeValue primaryClusterAddr : String)
    (write : WriteFn) (health : Nat → Except String JObj)
    (statusResp : Except String (Option JObj)) : PrimaryCreateResult :=
  let path := replicationPrimaryCreatePath typeValue
  let data : Option JObj :=
    if primaryClusterAddr ≠ "" then
      some [("primary_cluster_addr", JVal.str primaryClusterAddr)]
    else none
  match write path data with
  | .error err =>
    ⟨⟨path, data⟩, none, none,
      .error (.transport ("error enabling " ++ typeValue ++ " replication: " ++ err))⟩
  | .ok resp =>
    match resp with
    | some rd =>
      match jlookup rd "Errors" with
      | some v =>
        ⟨⟨path, data⟩, none, none,
          .error (.remote ("error enabling " ++ typeValue ++ " replication") v)⟩
      | none =>
        let w := waitForReplication typeValue "running" path health
        ⟨⟨path, data⟩, some path, some w, replicationPrimaryRead statusResp⟩
    | none =>
      let w := waitForReplication typeValue "running" path health
      ⟨⟨path, data⟩, some path, some w, replicationPrimaryRead statusResp⟩

/-- Trace of one `replicationPrimaryDelete` run. -/
structure DeleteResult where
  writeCall : Call
  waitOutcome : Option WaitResult
  result : Except RepError Unit

/-- `replicationPrimaryDelete`: writes nil data to the disable path,
rejects a transport error or a non-null `Errors` value (a nil response
panics at the `resp.Data["Errors"]` dereference), then runs
`waitForReplication(typeValue, "disabled", path, ...)` discarding its
result and returns nil. -/
def replicationPrimaryDelete (typeValue : String) (write : WriteFn)
    (health : Nat → Except String JObj) : DeleteResult :=
  let path := replicationPrimaryDeletePath typeValue
  match write path none with
  | .error err =>
    ⟨⟨path, none⟩, none,
      .error (.transport ("error disabling " ++ typeValue ++ " replication: " ++ err))⟩
  | .ok none => ⟨⟨path, none⟩, none, .error .nilDeref⟩
  | .ok (some rd) =>
    match dataErrors rd with
    | some v =>
      ⟨⟨path, none⟩, none,
        .error (.remote ("error disabling " ++ typeValue ++ " replication") v)⟩
    | none =>
      let w := waitForReplication typeValue "disabled" path health
      ⟨⟨path, none⟩, some w, .ok ()⟩

/-- Trace of one `replicationSecondaryCreate` run. -/
structure SecondaryCreateResult where
  writeCall : Call
  newId : Option String
  result : Except RepError (Bool × SecondaryRecord)

/-- `replicationSecondaryCreate`: always sends all four fields (`token`,
`primary_api_addr`, `ca_file`, `ca_path`), empty strings included; rejects
a transport error or a response whose `Data` has an `Errors` key
(comma-ok idiom); sets the id to the enable path; no convergence wait
(the call is commented out in the source); returns
`replicationSecondaryRead` of the status read outcome. -/
def replicationSecondaryCreate (typeValue token primaryApiAddr caFile caPath : String)
    (write : WriteFn) (statusResp : Except String (Option JObj)) : SecondaryCreateResult :=
  let path := replicationSecondaryCreatePath typeValue
  let data : JObj :=
    [("token", JVal.str token),
     ("primary_api_addr", JVal.str primaryApiAddr),
     ("ca_file", JVal.str caFile),
     ("ca_path", JVal.str caPath)]
  match write path (some data) with
  | .error err =>
    ⟨⟨path, some data⟩, none,
      .error (.transport ("error enabling " ++ typeValue ++ " replication: " ++ err))⟩
  | .ok resp =>
    match resp with
    | some rd =>
      match jlookup rd "Errors" with
      | some v =>
        ⟨⟨path, some data⟩, none,
          .error (.remote ("error returned from " ++ typeValue ++ " primary") v)⟩
      | none =>
        ⟨⟨path, some data⟩, some path, replicationSecondaryRead statusResp⟩
    | none =>
      ⟨⟨path, some data⟩, some path, replicationSecondaryRead statusResp⟩

/- ------------------------------------------------------------------ -/
/- Exists checks and the token resource                               -/
/- ------------------------------------------------------------------ -/

/-- Result of a Terraform `Exists` function: a normal `(bool, error)`
return, or a run-time panic (modelled, since the Go code would crash
rather than return). -/
inductive ExistsResult where
  | ret (b : Bool) (e : Option RepError)
  | panicked (r : RepError)

/-- `replicationPrimaryExists`, as a function of the status read outcome:
`(true, error)` on a transport error or a non-null `Errors` value; a nil
response panics at `resp.Data`; otherwise `(true, nil)` unless
`mode == "disabled"`, which yields `(false, nil)`. -/
def replicationPrimaryExists (typeValue : String)
    (readResp : Except String (Option JObj)) : ExistsResult :=
  match readResp with
  | .error err =>
    .ret true (some (.transport ("error checking " ++ typeValue ++ " replication: " ++ err)))
  | .ok none => .panicked .nilDeref
  | .ok (some rd) =>
    match dataErrors rd with
    | some v => .ret true (some (.remote ("error checking " ++ typeValue ++ " replication") v))
    | none =>
      if isDisabledMode rd then .ret false none else .ret true none

/-- `replicationSecondaryExists`: same structure as
`replicationPrimaryExists` (both read the shared status path). -/
def replicationSecondaryExists (typeValue : String)
    (readResp : Except String (Option JObj)) : ExistsResult :=
  match readResp with
  | .error err =>
    .ret true (some (.transport ("error checking " ++ typeValue ++ " replication: " ++ err)))
  | .ok none => .panicked .nilDeref
  | .ok (some rd) =>
    match dataErrors rd with
    | some v => .ret true (some (.remote ("error checking " ++ typeValue ++ " replication") v))
    | none =>
      if isDisabledMode rd then .ret false none else .ret true none

/-- The inner loop of `replicationTokenExists` over one entry `z` of the
`secondaries` slice: `z` must be a map (else the assertion
`z.(map[string]interface{})` panics); the `node_id` value, when present,
must be a string (else `v.(string)` panics); the entry matches when that
string equals the queried token id. -/
def scanEntry (tokenId : String) (z : JVal) : Except RepError Bool :=
  match z with
  | JVal.obj fs =>
    match jlookup fs "node_id" with
    | some (JVal.str v) => .ok (v = tokenId)
    | some _ => .error (.malformed "node_id")
    | none => .ok false
  | _ => .error (.malformed "secondaries")

/-- The outer loop of `replicationTokenExists` over the `secondaries`
slice: returns `(true, nil)` at the first matching entry, `(false, nil)`
after exhausting the slice. -/
def scanSecondaries (tokenId : String) : List JVal → ExistsResult
  | [] => .ret false none
  | z :: rest =>
    match scanEntry tokenId z with
    | .error e => .panicked e
    | .ok true => .ret true none
    | .ok false => scanSecondaries tokenId rest

/-- `replicationTokenExists`: reads the status path; `(true, error)` on a
transport error or a non-null `Errors` value; when the `secondaries` field
is absent or null the scan is skipped and the result is `(false, nil)`;
when present it must be a slice (else the assertion panics) and is
scanned for a `node_id` equal to the queried token id. -/
def replicationTokenExists (typeValue tokenId : String)
    (readResp : Except String (Option JObj)) : ExistsResult :=
  match readResp with
  | .error err =>
    .ret true (some (.transport ("error checking replication token: " ++ err)))
  | .ok none => .panicked .nilDeref
  | .ok (some rd) =>
    match dataErrors rd with
    | some v => .ret true (some (.remote "error checking replication token" v))
    | none =>
      match jlookup rd "secondaries" with
      | none => .ret false none
      | some JVal.null => .ret false none
      | some (JVal.arr xs) => scanSecondaries tokenId xs
      | some _ => .panicked (.malformed "secondaries")

/-- The response wrapping envelope of a write (`api.Secret.WrapInfo`). -/
structure WrapInfo where
  token : String

/-- A non-nil write response for the token-issue call: the `Data` map and
the optional wrapping envelope. -/
structure Secret where
  data : JObj
  wrapInfo : Option WrapInfo

/-- The payload `replicationTokenCreate` writes: `{id: tokenID}`, extended
with `ttl` and `secondary_public_key` only when `d.GetOk` reports them set
(a Terraform string field is "set" exactly when non-empty). -/
def replicationTokenCreateData (id ttl secondaryPublicKey : String) : JObj :=
  [("id", JVal.str id)]
    ++ (if ttl ≠ "" then [("ttl", JVal.str ttl)] else [])
    ++ (if secondaryPublicKey ≠ "" then [("secondary_public_key", JVal.str secondaryPublicKey)] else [])

/-- Trace of one `replicationTokenCreate` run: the write issued, the id
set (if reached), the `d.Set` stores performed, and the returned value. -/
structure TokenCreateResult where
  writeCall : Call
  newId : Option String
  sets : List (String × String)
  result : Except RepError Unit

/-- `replicationTokenCreate`: writes the payload to the token-issue path;
rejects a transport error or a response whose `Data` has an `Errors` key
(comma-ok idiom); sets the id to the token id; then dereferences
`resp.WrapInfo.Token` (a nil response or nil envelope panics), stores the
wrapped token once under `secondary_token`, and returns
`replicationTokenRead` of the status read outcome. -/
def replicationTokenCreate (typeValue id ttl secondaryPublicKey : String)
    (write : String → JObj → Except String (Option Secret))
    (statusResp : Except String (Option JObj)) : TokenCreateResult :=
  let path := replicationTokenCreatePath typeValue
  let data := replicationTokenCreateData id ttl secondaryPublicKey
  match write path data with
  | .error err =>
    ⟨⟨path, some data⟩, none, [],
      .error (.transport ("error creating replication token: " ++ err))⟩
  | .ok resp =>
    match resp with
    | some s =>
      match jlookup s.data "Errors" with
      | some v =>
        ⟨⟨path, some data⟩, none, [],
          .error (.remote "error creating replication token" v)⟩
      | none =>
        match s.wrapInfo with
        | none => ⟨⟨path, some data⟩, some id, [], .error .nilDeref⟩
        | some wi =>
          ⟨⟨path, some data⟩, some id, [("secondary_token", wi.token)],
            replicationTokenRead statusResp⟩
    | none =>
      -- SetId(id) is reached, then `resp.WrapInfo.Token` dereferences nil
      ⟨⟨path, some data⟩, some id, [], .error .nilDeref⟩

/- ------------------------------------------------------------------ -/
/- Concrete fixtures                                                  -/
/- ------------------------------------------------------------------ -/

/-- A health endpoint that always answers successfully but never carries
the replication-mode field, hence never reports the target state. -/
def healthNever : Nat → Except String JObj := fun _ => .ok []

/-- A health endpoint that reports dr-primary mode from the start. -/
def healthPrimaryNow : Nat → Except String JObj :=
  fun _ => .ok [("replication_dr_mode", JVal.str "primary")]

/-- A `Logical().Write` collaborator whose calls succeed with a nil
response. -/
def writeOkNil : WriteFn := fun _ _ => .ok none

/-- A well-formed primary status body in mode `primary`. -/
def statusBodyPrimary : JObj :=
  [("primary_cluster_addr", JVal.str "https://10.0.0.1:8201"),
   ("cluster_id", JVal.str "cid-1"),
   ("mode", JVal.str "primary"),
   ("state", JVal.str "running"),
   ("known_secondaries", JVal.arr []),
   ("secondaries", JVal.arr [])]

/-- A well-formed primary status body in mode `disabled`. -/
def statusBodyDisabled : JObj :=
  [("primary_cluster_addr", JVal.str ""),
   ("cluster_id", JVal.str ""),
   ("mode", JVal.str "disabled"),
   ("state", JVal.str "idle"),
   ("known_secondaries", JVal.arr []),
   ("secondaries", JVal.arr [])]

/-- A well-formed secondary status body in mode `secondary`. -/
def statusBodySecondary : JObj :=
  [("primary_cluster_addr", JVal.str "https://10.0.0.1:8201"),
   ("cluster_id", JVal.str "cid-1"),
   ("mode", JVal.str "secondary"),
   ("state", JVal.str "stream-wals"),
   ("known_primary_cluster_addrs", JVal.arr []),
   ("primaries", JVal.arr [])]

/-- A status body whose `secondaries` slice holds one entry with
`node_id` `sec-1`. -/
def statusBodyWithToken : JObj :=
  [("mode", JVal.str "primary"),
   ("secondaries", JVal.arr [JVal.obj [("node_id", JVal.str "sec-1")]])]

/- ------------------------------------------------------------------ -/
/- Retry-loop lemmas                                                  -/
/- ------------------------------------------------------------------ -/

/-- When every attempt in the budget fails, the loop performs all
`r + 1` attempts, sleeps `r` times, and ends with the error of the last
attempt. -/
theorem retryLoop_all_fail (op : Nat → Option String) (interval : Nat) :
    ∀ r i, (∀ j, j ≤ r → (op (i + j)).isSome = true) →
      ∃ e, op (i + r) = some e ∧
        retryLoop op interval i r = (some e, i + r + 1, List.replicate r interval) := by
  intro r
  induction r with
  | zero =>
    intro i h
    have h0 := h 0 (Nat.le_refl 0)
    rw [Nat.add_zero] at h0
    cases ho : op i with
    | none => rw [ho] at h0; simp at h0
    | some e =>
      refine ⟨e, by simpa using ho, ?_⟩
      simp [retryLoop, ho]
  | succ r ih =>
    intro i h
    have h0 := h 0 (Nat.zero_le _)
    rw [Nat.add_zero] at h0
    cases ho : op i with
    | none => rw [ho] at h0; simp at h0
    | some e0 =>
      obtain ⟨e, he, hr⟩ := ih (i + 1) (by
        intro j hj
        have := h (j + 1) (by omega)
        rwa [show i + (j + 1) = i + 1 + j by omega] at this)
      refine ⟨e, ?_, ?_⟩
      · rwa [show i + (r + 1) = i + 1 + r by omega]
      · simp only [retryLoop, ho, hr]
        simp only [Prod.mk.injEq, List.replicate_succ]
        exact ⟨trivial, by omega, trivial⟩

/-- When the first success is attempt `k` within the budget, the loop
stops there: `k + 1` attempts, `k` sleeps, no error. -/
theorem retryLoop_first_success (op : Nat → Option String) (interval : Nat) :
    ∀ k r i, k ≤ r → (∀ j, j < k → (op (i + j)).isSome = true) → op (i + k) = none →
      retryLoop op interval i r = (none, i + k + 1, List.replicate k interval) := by
  intro k
  induction k with
  | zero =>
    intro r i _ _ hk
    rw [Nat.add_zero] at hk
    cases r with
    | zero => simp [retryLoop, hk]
    | succ r => simp [retryLoop, hk]
  | succ k ih =>
    intro r i hkr hbefore hk
    obtain ⟨r, rfl⟩ : ∃ r2, r = r2 + 1 := ⟨r - 1, by omega⟩
    have h0 := hbefore 0 (Nat.zero_lt_succ _)
    rw [Nat.add_zero] at h0
    cases ho : op i with
    | none => rw [ho] at h0; simp at h0
    | some e0 =>
      have hr := ih r (i + 1) (by omega)
        (by
          intro j hj
          have := hbefore (j + 1) (by omega)
          rwa [show i + (j + 1) = i + 1 + j by omega] at this)
        (by rwa [show i + 1 + k = i + (k + 1) by omega])
      simp only [retryLoop, ho, hr]
      simp only [Prod.mk.injEq, List.replicate_succ]
      exact ⟨trivial, by omega, trivial⟩

/-- An attempt succeeds exactly when the health request succeeded and the
queried field holds the expected string. -/
theorem retryRead_eq_none_iff (hq st : String) (resp : Except String JObj) :
    retryRead hq st resp = none ↔
      ∃ data, resp = .ok data ∧ jlookup data hq = some (JVal.str st) := by
  cases resp with
  | error e => simp [retryRead]
  | ok data =>
    simp only [retryRead, Except.ok.injEq]
    cases hv : jlookup data hq with
    | none =>
      simp only [hv]
      constructor
      · intro h; exact absurd h (by simp)
      · rintro ⟨d, rfl, hl⟩; rw [hv] at hl; exact absurd hl (by simp)
    | some v =>
      cases v with
      | str s =>
        by_cases hs : s = st
        · subst hs; simp [hv]
        · simp only [hv, if_neg hs]
          constructor
          · intro h; exact absurd h (by simp)
          · rintro ⟨d, rfl, hl⟩
            rw [hv] at hl
            exact absurd (Option.some.inj hl) (by simp [hs])
      | null =>
        simp only [hv]
        refine ⟨fun h => absurd h (by simp), ?_⟩
        rintro ⟨d, rfl, hl⟩; rw [hv] at hl; exact absurd hl (by simp)
      | num n =>
        simp only [hv]
        refine ⟨fun h => absurd h (by simp), ?_⟩
        rintro ⟨d, rfl, hl⟩; rw [hv] at hl; exact absurd hl (by simp)
      | bool b =>
        simp only [hv]
        refine ⟨fun h => absurd h (by simp), ?_⟩
        rintro ⟨d, rfl, hl⟩; rw [hv] at hl; exact absurd hl (by simp)
      | arr xs =>
        simp only [hv]
        refine ⟨fun h => absurd h (by simp), ?_⟩
        rintro ⟨d, rfl, hl⟩; rw [hv] at hl; exact absurd hl (by simp)
      | obj fs =>
        simp only [hv]
        refine ⟨fun h => absurd h (by simp), ?_⟩
        rintro ⟨d, rfl, hl⟩; rw [hv] at hl; exact absurd hl (by simp)

/-- C1 counterexample: against a health endpoint that never reports the
target state, `waitForReplication` issues 11 health requests — the
initial attempt plus the 10 retries granted by
`backoff.WithMaxRetries(..., 10)` — not the 10 total attempts the claim
states. -/
theorem waitForReplication_ten_attempts_cex :
    (waitForReplication "dr" "running" "/sys/replication/dr/primary/enable" healthNever).attempts
        = 11 ∧
    ¬ (waitForReplication "dr" "running" "/sys/replication/dr/primary/enable" healthNever).attempts
        = 10 := by
  constructor
  · rfl
  · intro h
    rw [show (waitForReplication "dr" "running" "/sys/replication/dr/primary/enable"
        healthNever).attempts = 11 from rfl] at h
    omega

/-- C1 (amended): for every health endpoint that never reports the mapped
target state, the convergence wait performs its attempts under a constant
backoff with a fixed interval of 1 second (10 one-second sleeps), makes 11
attempts total (the initial attempt plus 10 retries), and then fails with
a convergence-timeout error wrapping the path and the error of the last
attempt. -/
theorem waitForReplication_exhaustion (t st path : String)
    (health : Nat → Except String JObj)
    (h : ∀ i, ¬ ∃ data, health i = .ok data ∧
        jlookup data (healthQuery t) = some (JVal.str (mapTargetState st))) :
    ∃ e, retryRead (healthQuery t) (mapTargetState st) (health 10) = some e ∧
      waitForReplication t st path health =
        ⟨.error (.convergenceTimeout path e), 11, List.replicate 10 constantBackOffInterval⟩ := by
  have hsome : ∀ j, j ≤ 10 →
      ((fun i => retryRead (healthQuery t) (mapTargetState st) (health i)) (0 + j)).isSome
        = true := by
    intro j _
    have hnn : retryRead (healthQuery t) (mapTargetState st) (health (0 + j)) ≠ none := by
      intro hc
      rw [retryRead_eq_none_iff] at hc
      exact h (0 + j) hc
    simpa [Option.isSome_iff_ne_none] using hnn
  obtain ⟨e, he, hr⟩ :=
    retryLoop_all_fail (fun i => retryRead (healthQuery t) (mapTargetState st) (health i))
      constantBackOffInterval 10 0 hsome
  refine ⟨e, by simpa using he, ?_⟩
  simp only [waitForReplication]
  rw [hr]

/-- C6: the convergence wait succeeds on the first attempt whose health
field `replication_<type>_mode` (with the logical target `running` mapped
to `primary`) holds a string equal to the mapped target state, and issues
no further health requests after that attempt: when the first such
attempt is `k` (within the retry budget), exactly `k + 1` health requests
are made. -/
theorem waitForReplication_first_match (t st path : String)
    (health : Nat → Except String JObj) (k : Nat)
    (hk : k ≤ 10)
    (hbefore : ∀ i, i < k → ¬ ∃ data, health i = .ok data ∧
        jlookup data (healthQuery t) = some (JVal.str (mapTargetState st)))
    (hmatch : ∃ data, health k = .ok data ∧
        jlookup data (healthQuery t) = some (JVal.str (mapTargetState st))) :
    waitForReplication t st path health =
      ⟨.ok (), k + 1, List.replicate k constantBackOffInterval⟩ := by
  have hstop : retryRead (healthQuery t) (mapTargetState st) (health (0 + k)) = none := by
    rw [retryRead_eq_none_iff]
    simpa using hmatch
  have hbefore2 : ∀ j, j < k →
      ((fun i => retryRead (healthQuery t) (mapTargetState st) (health i)) (0 + j)).isSome
        = true := by
    intro j hj
    have hnn : retryRead (healthQuery t) (mapTargetState st) (health (0 + j)) ≠ none := by
      intro hc
      rw [retryRead_eq_none_iff] at hc
      rw [Nat.zero_add] at hc
      exact hbefore j hj hc
    simpa [Option.isSome_iff_ne_none] using hnn
  have hr := retryLoop_first_success
    (fun i => retryRead (healthQuery t) (mapTargetState st) (health i))
    constantBackOffInterval k 10 0 hk hbefore2 hstop
  simp only [waitForReplication]
  rw [hr]
  simp

/-- Witness for the exhaustion theorem at a concrete never-converging
health endpoint. -/
theorem waitForReplication_exhaustion_witness :
    ∃ e, retryRead (healthQuery "dr") (mapTargetState "running") (healthNever 10) = some e ∧
      waitForReplication "dr" "running" "/sys/replication/dr/primary/enable" healthNever =
        ⟨.error (.convergenceTimeout "/sys/replication/dr/primary/enable" e), 11,
          List.replicate 10 constantBackOffInterval⟩ :=
  waitForReplication_exhaustion "dr" "running" "/sys/replication/dr/primary/enable" healthNever
    (by
      intro i hc
      obtain ⟨d, hd, hl⟩ := hc
      have hd2 : ([] : JObj) = d := by
        simpa [healthNever] using hd
      rw [← hd2] at hl
      simp [jlookup] at hl)

/-- Witness for the first-match theorem: a health endpoint reporting
dr-primary immediately makes the wait succeed after a single request. -/
theorem waitForReplication_first_match_witness :
    0 ≤ 10 ∧
    waitForReplication "dr" "running" "/sys/replication/dr/primary/enable" healthPrimaryNow =
      ⟨.ok (), 0 + 1, List.replicate 0 constantBackOffInterval⟩ :=
  ⟨by omega,
    waitForReplication_first_match "dr" "running" "/sys/replication/dr/primary/enable"
      healthPrimaryNow 0 (by omega)
      (by intro i hi; omega)
      ⟨[("replication_dr_mode", JVal.str "primary")], rfl, by rfl⟩⟩

/-- C2 counterexample: a concrete enable-primary call whose write succeeds
but whose convergence wait exhausts its retry budget with a
convergence-timeout error, while the call itself still returns success
(the result of the subsequent status read) — the error of the wait is not
surfaced to the caller. -/
theorem replicationPrimaryCreate_wait_swallowed_cex :
    (replicationPrimaryCreate "dr" "" writeOkNil healthNever
        (.ok (some statusBodyPrimary))).waitOutcome =
      some (waitForReplication "dr" "running" "/sys/replication/dr/primary/enable" healthNever) ∧
    (waitForReplication "dr" "running" "/sys/replication/dr/primary/enable" healthNever).outcome =
      .error (.convergenceTimeout "/sys/replication/dr/primary/enable"
        "error waiting for replication") ∧
    (replicationPrimaryCreate "dr" "" writeOkNil healthNever
        (.ok (some statusBodyPrimary))).result =
      .ok (false, ⟨"https://10.0.0.1:8201", "cid-1", "primary", "running", [], []⟩) :=
  ⟨rfl, rfl, rfl⟩

/-- C2 (amended): the outcome of the convergence wait is ignored on
enable-primary exactly as on disable-primary: the value returned by
`replicationPrimaryCreate` (respectively `replicationPrimaryDelete`) is
independent of the health-endpoint behaviour, so a wait that exhausts its
retry budget is never surfaced to the caller at either site. -/
theorem replicationPrimary_wait_not_surfaced (t addr : String) (write : WriteFn)
    (h1 h2 : Nat → Except String JObj) (s : Except String (Option JObj)) :
    (replicationPrimaryCreate t addr write h1 s).result =
      (replicationPrimaryCreate t addr write h2 s).result ∧
    (replicationPrimaryDelete t write h1).result = (replicationPrimaryDelete t write h2).result := by
  constructor
  · cases hw : write (replicationPrimaryCreatePath t)
        (if addr = "" then none else some [("primary_cluster_addr", JVal.str addr)]) with
    | error err => simp [replicationPrimaryCreate, hw]
    | ok resp =>
      cases resp with
      | none => simp [replicationPrimaryCreate, hw]
      | some rd =>
        cases hj : jlookup rd "Errors" with
        | none => simp [replicationPrimaryCreate, hw, hj]
        | some v => simp [replicationPrimaryCreate, hw, hj]
  · cases hw : write (replicationPrimaryDeletePath t) none with
    | error err => simp [replicationPrimaryDelete, hw]
    | ok resp =>
      cases resp with
      | none => simp [replicationPrimaryDelete, hw]
      | some rd =>
        cases hj : dataErrors rd with
        | none => simp [replicationPrimaryDelete, hw, hj]
        | some v => simp [replicationPrimaryDelete, hw, hj]

/- ------------------------------------------------------------------ -/
/- Projection well-formedness (C3, C4)                                -/
/- ------------------------------------------------------------------ -/

/-- All six fields projected by `replicationPrimaryRead` are present with
the asserted types. -/
def wellFormedPrimary (rd : JObj) : Bool :=
  (getString rd "primary_cluster_addr").isOk && (getString rd "cluster_id").isOk &&
  (getString rd "mode").isOk && (getString rd "state").isOk &&
  (getArr rd "known_secondaries").isOk && (getArr rd "secondaries").isOk

/-- All six fields projected by `replicationSecondaryRead` are present
with the asserted types. -/
def wellFormedSecondary (rd : JObj) : Bool :=
  (getString rd "primary_cluster_addr").isOk && (getString rd "cluster_id").isOk &&
  (getString rd "mode").isOk && (getString rd "state").isOk &&
  (getArr rd "known_primary_cluster_addrs").isOk && (getArr rd "primaries").isOk

/-- `f` is one of the fields of the primary projection and its value in `rd` is
absent or mistyped. -/
def primaryFieldBad (rd : JObj) (f : String) : Bool :=
  (["primary_cluster_addr", "cluster_id", "mode", "state"].contains f
      && !(getString rd f).isOk)
  || (["known_secondaries", "secondaries"].contains f && !(getArr rd f).isOk)

/-- `f` is one of the fields of the secondary projection and its value in `rd`
is absent or mistyped. -/
def secondaryFieldBad (rd : JObj) (f : String) : Bool :=
  (["primary_cluster_addr", "cluster_id", "mode", "state"].contains f
      && !(getString rd f).isOk)
  || (["known_primary_cluster_addrs", "primaries"].contains f && !(getArr rd f).isOk)

/-- A failed string extraction always reports the queried field. -/
theorem getString_error {rd : JObj} {k : String} {e : RepError}
    (h : getString rd k = .error e) : e = RepError.malformed k := by
  unfold getString at h
  cases hv : jlookup rd k with
  | none => rw [hv] at h; exact (Except.error.inj h).symm
  | some v =>
    rw [hv] at h
    cases v with
    | str s => exact absurd h (by simp)
    | null => exact (Except.error.inj h).symm
    | num n => exact (Except.error.inj h).symm
    | bool b => exact (Except.error.inj h).symm
    | arr xs => exact (Except.error.inj h).symm
    | obj fs => exact (Except.error.inj h).symm

/-- A failed slice extraction always reports the queried field. -/
theorem getArr_error {rd : JObj} {k : String} {e : RepError}
    (h : getArr rd k = .error e) : e = RepError.malformed k := by
  unfold getArr at h
  cases hv : jlookup rd k with
  | none => rw [hv] at h; exact (Except.error.inj h).symm
  | some v =>
    rw [hv] at h
    cases v with
    | arr xs => exact absurd h (by simp)
    | null => exact (Except.error.inj h).symm
    | num n => exact (Except.error.inj h).symm
    | bool b => exact (Except.error.inj h).symm
    | str s => exact (Except.error.inj h).symm
    | obj fs => exact (Except.error.inj h).symm

/-- A successful result is `isOk`. -/
@[simp] theorem exceptIsOk_ok {ε α : Type} (a : α) :
    (Except.ok (ε := ε) a).isOk = true := rfl

/-- A failed result is not `isOk`. -/
@[simp] theorem exceptIsOk_error {ε α : Type} (e : ε) :
    (Except.error (α := α) e).isOk = false := rfl

/-- On a well-formed body the primary projection succeeds, with the purge
flag computed by the `mode == "disabled"` comparison. -/
theorem primaryRead_wf (rd : JObj) (h : wellFormedPrimary rd = true) :
    ∃ rec : PrimaryRecord, replicationPrimaryRead (.ok (some rd)) = .ok (isDisabledMode rd, rec) := by
  unfold wellFormedPrimary at h
  simp only [Bool.and_eq_true] at h
  obtain ⟨⟨⟨⟨⟨h1, h2⟩, h3⟩, h4⟩, h5⟩, h6⟩ := h
  cases e1 : getString rd "primary_cluster_addr" with
  | error e => rw [e1] at h1; exact absurd h1 (by simp)
  | ok pca =>
  cases e2 : getString rd "cluster_id" with
  | error e => rw [e2] at h2; exact absurd h2 (by simp)
  | ok cid =>
  cases e3 : getString rd "mode" with
  | error e => rw [e3] at h3; exact absurd h3 (by simp)
  | ok md =>
  cases e4 : getString rd "state" with
  | error e => rw [e4] at h4; exact absurd h4 (by simp)
  | ok st =>
  cases e5 : getArr rd "known_secondaries" with
  | error e => rw [e5] at h5; exact absurd h5 (by simp)
  | ok ks =>
  cases e6 : getArr rd "secondaries" with
  | error e => rw [e6] at h6; exact absurd h6 (by simp)
  | ok secs =>
    exact ⟨⟨pca, cid, md, st, ks, secs⟩,
      by simp [replicationPrimaryRead, e1, e2, e3, e4, e5, e6, Except.bind]⟩

/-- On an ill-formed body the primary projection fails with a
malformed-field error naming a bad field. -/
theorem primaryRead_not_wf (rd : JObj) (h : wellFormedPrimary rd = false) :
    ∃ f, primaryFieldBad rd f = true ∧
      replicationPrimaryRead (.ok (some rd)) = .error (.malformed f) := by
  cases e1 : getString rd "primary_cluster_addr" with
  | error e =>
    refine ⟨"primary_cluster_addr", by simp [primaryFieldBad, e1, Except.isOk], ?_⟩
    rw [getString_error e1] at e1
    simp [replicationPrimaryRead, e1, Except.bind]
  | ok pca =>
  cases e2 : getString rd "cluster_id" with
  | error e =>
    refine ⟨"cluster_id", by simp [primaryFieldBad, e2, Except.isOk], ?_⟩
    rw [getString_error e2] at e2
    simp [replicationPrimaryRead, e1, e2, Except.bind]
  | ok cid =>
  cases e3 : getString rd "mode" with
  | error e =>
    refine ⟨"mode", by simp [primaryFieldBad, e3, Except.isOk], ?_⟩
    rw [getString_error e3] at e3
    simp [replicationPrimaryRead, e1, e2, e3, Except.bind]
  | ok md =>
  cases e4 : getString rd "state" with
  | error e =>
    refine ⟨"state", by simp [primaryFieldBad, e4, Except.isOk], ?_⟩
    rw [getString_error e4] at e4
    simp [replicationPrimaryRead, e1, e2, e3, e4, Except.bind]
  | ok st =>
  cases e5 : getArr rd "known_secondaries" with
  | error e =>
    refine ⟨"known_secondaries", by simp [primaryFieldBad, e5, Except.isOk], ?_⟩
    rw [getArr_error e5] at e5
    simp [replicationPrimaryRead, e1, e2, e3, e4, e5, Except.bind]
  | ok ks =>
  cases e6 : getArr rd "secondaries" with
  | error e =>
    refine ⟨"secondaries", by simp [primaryFieldBad, e6, Except.isOk], ?_⟩
    rw [getArr_error e6] at e6
    simp [replicationPrimaryRead, e1, e2, e3, e4, e5, e6, Except.bind]
  | ok secs =>
    exfalso
    unfold wellFormedPrimary at h
    rw [e1, e2, e3, e4, e5, e6] at h
    simp [Except.isOk] at h

/-- On a well-formed body the secondary projection succeeds, with the
purge flag computed by the `mode == "disabled"` comparison. -/
theorem secondaryRead_wf (rd : JObj) (h : wellFormedSecondary rd = true) :
    ∃ rec : SecondaryRecord,
      replicationSecondaryRead (.ok (some rd)) = .ok (isDisabledMode rd, rec) := by
  unfold wellFormedSecondary at h
  simp only [Bool.and_eq_true] at h
  obtain ⟨⟨⟨⟨⟨h1, h2⟩, h3⟩, h4⟩, h5⟩, h6⟩ := h
  cases e1 : getString rd "primary_cluster_addr" with
  | error e => rw [e1] at h1; exact absurd h1 (by simp)
  | ok pca =>
  cases e2 : getString rd "cluster_id" with
  | error e => rw [e2] at h2; exact absurd h2 (by simp)
  | ok cid =>
  cases e3 : getString rd "mode" with
  | error e => rw [e3] at h3; exact absurd h3 (by simp)
  | ok md =>
  cases e4 : getString rd "state" with
  | error e => rw [e4] at h4; exact absurd h4 (by simp)
  | ok st =>
  cases e5 : getArr rd "known_primary_cluster_addrs" with
  | error e => rw [e5] at h5; exact absurd h5 (by simp)
  | ok kp =>
  cases e6 : getArr rd "primaries" with
  | error e => rw [e6] at h6; exact absurd h6 (by simp)
  | ok pr =>
    exact ⟨⟨pca, cid, md, st, kp, pr⟩,
      by simp [replicationSecondaryRead, e1, e2, e3, e4, e5, e6, Except.bind]⟩

/-- On an ill-formed body the secondary projection fails with a
malformed-field error naming a bad field. -/
theorem secondaryRead_not_wf (rd : JObj) (h : wellFormedSecondary rd = false) :
    ∃ f, secondaryFieldBad rd f = true ∧
      replicationSecondaryRead (.ok (some rd)) = .error (.malformed f) := by
  cases e1 : getString rd "primary_cluster_addr" with
  | error e =>
    refine ⟨"primary_cluster_addr", by simp [secondaryFieldBad, e1], ?_⟩
    rw [getString_error e1] at e1
    simp [replicationSecondaryRead, e1, Except.bind]
  | ok pca =>
  cases e2 : getString rd "cluster_id" with
  | error e =>
    refine ⟨"cluster_id", by simp [secondaryFieldBad, e2], ?_⟩
    rw [getString_error e2] at e2
    simp [replicationSecondaryRead, e1, e2, Except.bind]
  | ok cid =>
  cases e3 : getString rd "mode" with
  | error e =>
    refine ⟨"mode", by simp [secondaryFieldBad, e3], ?_⟩
    rw [getString_error e3] at e3
    simp [replicationSecondaryRead, e1, e2, e3, Except.bind]
  | ok md =>
  cases e4 : getString rd "state" with
  | error e =>
    refine ⟨"state", by simp [secondaryFieldBad, e4], ?_⟩
    rw [getString_error e4] at e4
    simp [replicationSecondaryRead, e1, e2, e3, e4, Except.bind]
  | ok st =>
  cases e5 : getArr rd "known_primary_cluster_addrs" with
  | error e =>
    refine ⟨"known_primary_cluster_addrs", by simp [secondaryFieldBad, e5], ?_⟩
    rw [getArr_error e5] at e5
    simp [replicationSecondaryRead, e1, e2, e3, e4, e5, Except.bind]
  | ok kp =>
  cases e6 : getArr rd "primaries" with
  | error e =>
    refine ⟨"primaries", by simp [secondaryFieldBad, e6], ?_⟩
    rw [getArr_error e6] at e6
    simp [replicationSecondaryRead, e1, e2, e3, e4, e5, e6, Except.bind]
  | ok pr =>
    exfalso
    unfold wellFormedSecondary at h
    rw [e1, e2, e3, e4, e5, e6] at h
    simp at h

/-- The purge comparison holds exactly when the `mode` field of the response is
the string `"disabled"`. -/
theorem isDisabledMode_iff (rd : JObj) :
    isDisabledMode rd = true ↔ jlookup rd "mode" = some (JVal.str "disabled") := by
  unfold isDisabledMode
  cases hv : jlookup rd "mode" with
  | none => simp
  | some v =>
    cases v with
    | str s => simp [decide_eq_true_iff]
    | null => simp
    | num n => simp
    | bool b => simp
    | arr xs => simp
    | obj fs => simp

/-- Whenever the primary projection succeeds, its purge flag is the
`mode == "disabled"` comparison. -/
theorem primaryRead_ok_shape (rd : JObj) (b : Bool) (rec : PrimaryRecord)
    (h : replicationPrimaryRead (.ok (some rd)) = .ok (b, rec)) : b = isDisabledMode rd := by
  cases hwf : wellFormedPrimary rd with
  | true =>
    obtain ⟨rec2, hr⟩ := primaryRead_wf rd hwf
    rw [hr] at h
    exact congrArg Prod.fst (Except.ok.inj h) |>.symm
  | false =>
    obtain ⟨f, _, hr⟩ := primaryRead_not_wf rd hwf
    rw [hr] at h
    exact absurd h (by simp)

/-- Whenever the secondary projection succeeds, its purge flag is the
`mode == "disabled"` comparison. -/
theorem secondaryRead_ok_shape (rd : JObj) (b : Bool) (rec : SecondaryRecord)
    (h : replicationSecondaryRead (.ok (some rd)) = .ok (b, rec)) : b = isDisabledMode rd := by
  cases hwf : wellFormedSecondary rd with
  | true =>
    obtain ⟨rec2, hr⟩ := secondaryRead_wf rd hwf
    rw [hr] at h
    exact congrArg Prod.fst (Except.ok.inj h) |>.symm
  | false =>
    obtain ⟨f, _, hr⟩ := secondaryRead_not_wf rd hwf
    rw [hr] at h
    exact absurd h (by simp)

/-- C3: for every status response body, the projection succeeds exactly
when every projected field is present with its expected type; a missing
or mistyped projected field makes the embedded read return a fatal
malformed-response error naming a bad field (never a silently tolerated
value).  This holds for the primary-side and the secondary-side read. -/
theorem statusReads_malformed_fatal (rdP rdS : JObj) :
    ((replicationPrimaryRead (.ok (some rdP))).isOk = wellFormedPrimary rdP) ∧
    (wellFormedPrimary rdP = false →
      ∃ f, primaryFieldBad rdP f = true ∧
        replicationPrimaryRead (.ok (some rdP)) = .error (.malformed f)) ∧
    ((replicationSecondaryRead (.ok (some rdS))).isOk = wellFormedSecondary rdS) ∧
    (wellFormedSecondary rdS = false →
      ∃ f, secondaryFieldBad rdS f = true ∧
        replicationSecondaryRead (.ok (some rdS)) = .error (.malformed f)) := by
  refine ⟨?_, primaryRead_not_wf rdP, ?_, secondaryRead_not_wf rdS⟩
  · cases hwf : wellFormedPrimary rdP with
    | true => obtain ⟨rec, hr⟩ := primaryRead_wf rdP hwf; rw [hr]; rfl
    | false => obtain ⟨f, _, hr⟩ := primaryRead_not_wf rdP hwf; rw [hr]; rfl
  · cases hwf : wellFormedSecondary rdS with
    | true => obtain ⟨rec, hr⟩ := secondaryRead_wf rdS hwf; rw [hr]; rfl
    | false => obtain ⟨f, _, hr⟩ := secondaryRead_not_wf rdS hwf; rw [hr]; rfl

/-- Witness: the empty body is ill-formed and both reads fail on it with
a malformed-field error; the fixtures are well-formed and both reads
succeed on them. -/
theorem statusReads_malformed_fatal_witness :
    (wellFormedPrimary [] = false ∧
      ∃ f, primaryFieldBad [] f = true ∧
        replicationPrimaryRead (.ok (some [])) = .error (.malformed f)) ∧
    (wellFormedSecondary [] = false ∧
      ∃ f, secondaryFieldBad [] f = true ∧
        replicationSecondaryRead (.ok (some [])) = .error (.malformed f)) ∧
    (replicationPrimaryRead (.ok (some statusBodyPrimary))).isOk = true ∧
    (replicationSecondaryRead (.ok (some statusBodySecondary))).isOk = true :=
  ⟨⟨rfl, (statusReads_malformed_fatal [] []).2.1 rfl⟩,
   ⟨rfl, (statusReads_malformed_fatal [] []).2.2.2 rfl⟩,
   (statusReads_malformed_fatal statusBodyPrimary statusBodySecondary).1.trans rfl,
   (statusReads_malformed_fatal statusBodyPrimary statusBodySecondary).2.2.1.trans rfl⟩

/-- C4: whenever a status read succeeds, the projection marks the local
record for purge (the flag driving the clearing of the durable
identifier) exactly when the `mode` field of the response equals `"disabled"`;
for any other mode value the record is kept.  This holds for both the
primary-side and the secondary-side read. -/
theorem statusReads_purge_iff_disabled :
    (∀ rd b rec, replicationPrimaryRead (.ok (some rd)) = .ok (b, rec) →
      (b = true ↔ jlookup rd "mode" = some (JVal.str "disabled"))) ∧
    (∀ rd b rec, replicationSecondaryRead (.ok (some rd)) = .ok (b, rec) →
      (b = true ↔ jlookup rd "mode" = some (JVal.str "disabled"))) := by
  constructor
  · intro rd b rec h
    rw [primaryRead_ok_shape rd b rec h]
    exact isDisabledMode_iff rd
  · intro rd b rec h
    rw [secondaryRead_ok_shape rd b rec h]
    exact isDisabledMode_iff rd

/-- Witness: a disabled-mode body purges on the primary read, and a
secondary-mode body is kept on the secondary read. -/
theorem statusReads_purge_iff_disabled_witness :
    (replicationPrimaryRead (.ok (some statusBodyDisabled)) =
      .ok (true, ⟨"", "", "disabled", "idle", [], []⟩) ∧
      jlookup statusBodyDisabled "mode" = some (JVal.str "disabled")) ∧
    (replicationSecondaryRead (.ok (some statusBodySecondary)) =
      .ok (false, ⟨"https://10.0.0.1:8201", "cid-1", "secondary", "stream-wals", [], []⟩) ∧
      ¬ jlookup statusBodySecondary "mode" = some (JVal.str "disabled")) :=
  ⟨⟨rfl, (statusReads_purge_iff_disabled.1 statusBodyDisabled true
      ⟨"", "", "disabled", "idle", [], []⟩ rfl).mp rfl⟩,
   ⟨rfl, fun hc => by
      have hb := (statusReads_purge_iff_disabled.2 statusBodySecondary false
        ⟨"https://10.0.0.1:8201", "cid-1", "secondary", "stream-wals", [], []⟩ rfl).mpr hc
      exact absurd hb (by simp)⟩⟩

/- ------------------------------------------------------------------ -/
/- Token existence scan (C5)                                          -/
/- ------------------------------------------------------------------ -/

/-- The `secondaries` slice of a status body, empty when the field is
absent or not a slice. -/
def secondariesList (rd : JObj) : List JVal :=
  match jlookup rd "secondaries" with
  | some (JVal.arr xs) => xs
  | _ => []

/-- One entry of the `secondaries` slice matches the queried token id:
it is a map whose `node_id` value is the string `tid`. -/
def entryMatches (tid : String) (z : JVal) : Bool :=
  match z with
  | JVal.obj fs =>
    match jlookup fs "node_id" with
    | some (JVal.str v) => v = tid
    | _ => false
  | _ => false

/-- One entry of the `secondaries` slice is shaped so the scan does not
panic on it: a map whose `node_id` value, when present, is a string. -/
def wellTypedEntry (z : JVal) : Bool :=
  match z with
  | JVal.obj fs =>
    match jlookup fs "node_id" with
    | some (JVal.str _) => true
    | none => true
    | some _ => false
  | _ => false

/-- The `secondaries` field of a status body is scan-safe: absent, null,
or a slice of well-shaped entries. -/
def wellTypedSecondaries (rd : JObj) : Bool :=
  match jlookup rd "secondaries" with
  | none => true
  | some JVal.null => true
  | some (JVal.arr xs) => xs.all wellTypedEntry
  | some _ => false

/-- Over a slice of well-shaped entries, the scan returns exactly whether
some entry matches. -/
theorem scanSecondaries_eval (tid : String) :
    ∀ xs : List JVal, xs.all wellTypedEntry = true →
      scanSecondaries tid xs = .ret (xs.any (entryMatches tid)) none := by
  intro xs
  induction xs with
  | nil => intro h; simp [scanSecondaries]
  | cons z rest ih =>
    intro h
    simp only [List.all_cons, Bool.and_eq_true] at h
    obtain ⟨hz, hrest⟩ := h
    cases z with
    | obj fs =>
      cases hv : jlookup fs "node_id" with
      | none =>
        simp [scanSecondaries, scanEntry, hv, ih hrest, entryMatches]
      | some v =>
        cases v with
        | str s =>
          by_cases hs : s = tid
          · subst hs
            simp [scanSecondaries, scanEntry, hv, entryMatches]
          · simp [scanSecondaries, scanEntry, hv, hs, ih hrest, entryMatches]
        | null => rw [wellTypedEntry] at hz; rw [hv] at hz; exact absurd hz (by simp)
        | num n => rw [wellTypedEntry] at hz; rw [hv] at hz; exact absurd hz (by simp)
        | bool b => rw [wellTypedEntry] at hz; rw [hv] at hz; exact absurd hz (by simp)
        | arr ys => rw [wellTypedEntry] at hz; rw [hv] at hz; exact absurd hz (by simp)
        | obj gs => rw [wellTypedEntry] at hz; rw [hv] at hz; exact absurd hz (by simp)
    | null => exact absurd hz (by simp [wellTypedEntry])
    | str s => exact absurd hz (by simp [wellTypedEntry])
    | num n => exact absurd hz (by simp [wellTypedEntry])
    | bool b => exact absurd hz (by simp [wellTypedEntry])
    | arr ys => exact absurd hz (by simp [wellTypedEntry])

/-- On an error-free, scan-safe body, the token existence check computes
whether some entry of the `secondaries` slice matches. -/
theorem replicationTokenExists_eval (t tid : String) (rd : JObj)
    (hne : dataErrors rd = none) (hwt : wellTypedSecondaries rd = true) :
    replicationTokenExists t tid (.ok (some rd)) =
      .ret ((secondariesList rd).any (entryMatches tid)) none := by
  simp only [replicationTokenExists, hne]
  unfold wellTypedSecondaries at hwt
  cases hv : jlookup rd "secondaries" with
  | none => simp [hv, secondariesList]
  | some v =>
    rw [hv] at hwt
    cases v with
    | null => simp [hv, secondariesList]
    | arr xs => simp [hv, secondariesList, scanSecondaries_eval tid xs hwt]
    | str s => exact absurd hwt (by simp)
    | num n => exact absurd hwt (by simp)
    | bool b => exact absurd hwt (by simp)
    | obj fs => exact absurd hwt (by simp)

/-- A Boolean match on an entry is exactly the existence of a matching
`node_id` binding. -/
theorem entryMatches_iff (tid : String) (z : JVal) :
    entryMatches tid z = true ↔
      ∃ fs, z = JVal.obj fs ∧ jlookup fs "node_id" = some (JVal.str tid) := by
  cases z with
  | obj fs =>
    cases hv : jlookup fs "node_id" with
    | none => simp [entryMatches, hv]
    | some v =>
      cases v with
      | str s =>
        simp only [entryMatches, hv, decide_eq_true_iff, JVal.obj.injEq]
        constructor
        · intro hs; exact ⟨fs, rfl, by rw [hv, hs]⟩
        · rintro ⟨fs2, rfl, hl⟩
          rw [hv] at hl
          exact (JVal.str.inj (Option.some.inj hl))
      | null => simp [entryMatches, hv]
      | num n => simp [entryMatches, hv]
      | bool b => simp [entryMatches, hv]
      | arr ys => simp [entryMatches, hv]
      | obj gs => simp [entryMatches, hv]
  | null => simp [entryMatches]
  | str s => simp [entryMatches]
  | num n => simp [entryMatches]
  | bool b => simp [entryMatches]
  | arr ys => simp [entryMatches]

/-- C5: on every error-free status body whose `secondaries` field is
absent or a slice of well-shaped entries, the token existence check
returns true exactly when some entry of the slice has `node_id` equal to
the queried token id, and returns false exactly when no entry does (in
particular on an empty or absent slice). -/
theorem replicationTokenExists_iff (t tid : String) (rd : JObj)
    (hne : dataErrors rd = none) (hwt : wellTypedSecondaries rd = true) :
    (replicationTokenExists t tid (.ok (some rd)) = .ret true none ↔
      ∃ fs, JVal.obj fs ∈ secondariesList rd ∧
        jlookup fs "node_id" = some (JVal.str tid)) ∧
    (replicationTokenExists t tid (.ok (some rd)) = .ret false none ↔
      ¬ ∃ fs, JVal.obj fs ∈ secondariesList rd ∧
        jlookup fs "node_id" = some (JVal.str tid)) := by
  have heval := replicationTokenExists_eval t tid rd hne hwt
  have hany : (secondariesList rd).any (entryMatches tid) = true ↔
      ∃ fs, JVal.obj fs ∈ secondariesList rd ∧
        jlookup fs "node_id" = some (JVal.str tid) := by
    rw [List.any_eq_true]
    constructor
    · rintro ⟨z, hzmem, hzm⟩
      obtain ⟨fs, rfl, hl⟩ := (entryMatches_iff tid z).mp hzm
      exact ⟨fs, hzmem, hl⟩
    · rintro ⟨fs, hmem, hl⟩
      exact ⟨JVal.obj fs, hmem, (entryMatches_iff tid (JVal.obj fs)).mpr ⟨fs, rfl, hl⟩⟩
  rw [heval]
  constructor
  · rw [← hany]
    constructor
    · intro hr
      have := ExistsResult.ret.inj hr
      exact this.1
    · intro hb; rw [hb]
  · rw [← hany]
    constructor
    · intro hr hb
      have := (ExistsResult.ret.inj hr).1
      rw [hb] at this
      exact absurd this (by simp)
    · intro hb
      cases hx : (secondariesList rd).any (entryMatches tid) with
      | false => rfl
      | true => exact absurd hx hb

/-- Witness: the fixture slice holds `node_id = sec-1`, so the check finds
`sec-1` and misses `sec-2`. -/
theorem replicationTokenExists_iff_witness :
    dataErrors statusBodyWithToken = none ∧
    wellTypedSecondaries statusBodyWithToken = true ∧
    replicationTokenExists "performance" "sec-1" (.ok (some statusBodyWithToken)) =
      .ret true none ∧
    replicationTokenExists "performance" "sec-2" (.ok (some statusBodyWithToken)) =
      .ret false none :=
  ⟨rfl, rfl,
   (replicationTokenExists_iff "performance" "sec-1" statusBodyWithToken rfl rfl).1.mpr
     ⟨[("node_id", JVal.str "sec-1")], List.Mem.head _, rfl⟩,
   (replicationTokenExists_iff "performance" "sec-2" statusBodyWithToken rfl rfl).2.mpr
     (by
       rintro ⟨fs, hmem, hl⟩
       simp only [secondariesList, statusBodyWithToken] at hmem
       rw [show jlookup [("mode", JVal.str "primary"),
          ("secondaries", JVal.arr [JVal.obj [("node_id", JVal.str "sec-1")]])]
          "secondaries" = some (JVal.arr [JVal.obj [("node_id", JVal.str "sec-1")]]) from rfl]
         at hmem
       simp only [List.mem_singleton, JVal.obj.injEq] at hmem
       subst hmem
       simp [jlookup] at hl)⟩

/- ------------------------------------------------------------------ -/
/- Write payload shapes (C7, C8)                                      -/
/- ------------------------------------------------------------------ -/

/-- C7: every enable-secondary call writes a payload with exactly the
four fields `token`, `primary_api_addr`, `ca_file` and `ca_path`, each
carrying its input string verbatim — an unset optional input is an empty
string and is still sent, never omitted. -/
theorem replicationSecondaryCreate_payload (t tok pa cf cp : String) (write : WriteFn)
    (s : Except String (Option JObj)) :
    (replicationSecondaryCreate t tok pa cf cp write s).writeCall =
      ⟨replicationSecondaryCreatePath t,
        some [("token", JVal.str tok), ("primary_api_addr", JVal.str pa),
              ("ca_file", JVal.str cf), ("ca_path", JVal.str cp)]⟩ ∧
    ((replicationSecondaryCreate t tok pa cf cp write s).writeCall.payload).map
        (List.map Prod.fst) =
      some ["token", "primary_api_addr", "ca_file", "ca_path"] := by
  have hcall : (replicationSecondaryCreate t tok pa cf cp write s).writeCall =
      ⟨replicationSecondaryCreatePath t,
        some [("token", JVal.str tok), ("primary_api_addr", JVal.str pa),
              ("ca_file", JVal.str cf), ("ca_path", JVal.str cp)]⟩ := by
    cases hw : write (replicationSecondaryCreatePath t)
        (some [("token", JVal.str tok), ("primary_api_addr", JVal.str pa),
               ("ca_file", JVal.str cf), ("ca_path", JVal.str cp)]) with
    | error err => simp [replicationSecondaryCreate, hw]
    | ok resp =>
      cases resp with
      | none => simp [replicationSecondaryCreate, hw]
      | some rd =>
        cases hj : jlookup rd "Errors" with
        | none => simp [replicationSecondaryCreate, hw, hj]
        | some v => simp [replicationSecondaryCreate, hw, hj]
  exact ⟨hcall, by rw [hcall]; rfl⟩

/-- C8: an enable-primary call with an empty `primary_cluster_addr` omits
the field entirely (a nil payload map); with a non-empty value the payload
holds exactly that field with the value verbatim. -/
theorem replicationPrimaryCreate_payload (t addr : String) (write : WriteFn)
    (health : Nat → Except String JObj) (s : Except String (Option JObj)) :
    (addr = "" →
      (replicationPrimaryCreate t addr write health s).writeCall.payload = none) ∧
    (addr ≠ "" →
      (replicationPrimaryCreate t addr write health s).writeCall.payload =
        some [("primary_cluster_addr", JVal.str addr)]) := by
  have hcall : (replicationPrimaryCreate t addr write health s).writeCall =
      ⟨replicationPrimaryCreatePath t,
        if addr = "" then none else some [("primary_cluster_addr", JVal.str addr)]⟩ := by
    cases hw : write (replicationPrimaryCreatePath t)
        (if addr = "" then none else some [("primary_cluster_addr", JVal.str addr)]) with
    | error err => simp [replicationPrimaryCreate, hw]
    | ok resp =>
      cases resp with
      | none => simp [replicationPrimaryCreate, hw]
      | some rd =>
        cases hj : jlookup rd "Errors" with
        | none => simp [replicationPrimaryCreate, hw, hj]
        | some v => simp [replicationPrimaryCreate, hw, hj]
  constructor
  · intro h; rw [hcall]; simp [h]
  · intro h; rw [hcall]; simp [h]

/-- Witness: with an empty address the payload is nil, and with the
example address from the spec the payload carries the field verbatim. -/
theorem replicationPrimaryCreate_payload_witness :
    ("" : String) = "" ∧
    (replicationPrimaryCreate "dr" "" writeOkNil healthPrimaryNow
        (.ok (some statusBodyPrimary))).writeCall.payload = none ∧
    ("10.0.0.1:8201" : String) ≠ "" ∧
    (replicationPrimaryCreate "dr" "10.0.0.1:8201" writeOkNil healthPrimaryNow
        (.ok (some statusBodyPrimary))).writeCall.payload =
      some [("primary_cluster_addr", JVal.str "10.0.0.1:8201")] :=
  ⟨rfl,
   (replicationPrimaryCreate_payload "dr" "" writeOkNil healthPrimaryNow
     (.ok (some statusBodyPrimary))).1 rfl,
   by decide,
   (replicationPrimaryCreate_payload "dr" "10.0.0.1:8201" writeOkNil healthPrimaryNow
     (.ok (some statusBodyPrimary))).2 (by decide)⟩

/- ------------------------------------------------------------------ -/
/- Token issuance (C9)                                                -/
/- ------------------------------------------------------------------ -/

/-- A token-issue write collaborator that succeeds with an empty data map
and a wrapping envelope holding `wrapped-secret`. -/
def writeTokOk : String → JObj → Except String (Option Secret) :=
  fun _ _ => .ok (some ⟨[], some ⟨"wrapped-secret"⟩⟩)

/-- C9: a successful token-issue call writes `{id: tokenID}` extended
with `ttl` and `secondary_public_key` only when those inputs are set
(non-empty), and stores, exactly once, the token taken from the wrapping
envelope of the response — not from its data payload (the stored value is the
envelope token for every data payload `sd`). -/
theorem replicationTokenCreate_spec (t id ttl spk : String)
    (write : String → JObj → Except String (Option Secret))
    (statusResp : Except String (Option JObj)) (sd : JObj) (wtok : String)
    (hw : write (replicationTokenCreatePath t) (replicationTokenCreateData id ttl spk) =
      .ok (some ⟨sd, some ⟨wtok⟩⟩))
    (hne : jlookup sd "Errors" = none) :
    (replicationTokenCreate t id ttl spk write statusResp).writeCall =
      ⟨replicationTokenCreatePath t, some (replicationTokenCreateData id ttl spk)⟩ ∧
    (replicationTokenCreate t id ttl spk write statusResp).sets =
      [("secondary_token", wtok)] ∧
    jlookup (replicationTokenCreateData id ttl spk) "id" = some (JVal.str id) ∧
    (ttl = "" → jlookup (replicationTokenCreateData id ttl spk) "ttl" = none) ∧
    (ttl ≠ "" →
      jlookup (replicationTokenCreateData id ttl spk) "ttl" = some (JVal.str ttl)) ∧
    (spk = "" →
      jlookup (replicationTokenCreateData id ttl spk) "secondary_public_key" = none) ∧
    (spk ≠ "" →
      jlookup (replicationTokenCreateData id ttl spk) "secondary_public_key" =
        some (JVal.str spk)) := by
  refine ⟨?_, ?_, ?_, ?_, ?_, ?_, ?_⟩
  · simp [replicationTokenCreate, hw, hne]
  · simp [replicationTokenCreate, hw, hne]
  · simp [replicationTokenCreateData, jlookup]
  · intro h
    by_cases hs : spk = "" <;> simp [replicationTokenCreateData, jlookup, h, hs]
  · intro h
    simp [replicationTokenCreateData, jlookup, h]
  · intro h
    by_cases ht : ttl = "" <;> simp [replicationTokenCreateData, jlookup, h, ht]
  · intro h
    by_cases ht : ttl = "" <;> simp [replicationTokenCreateData, jlookup, h, ht]

/-- Witness: the scenario from the spec — type `performance`, token id `sec-1`,
ttl `30m`, no public key: the `ttl` field is sent, the public-key field is
omitted, and the wrapped token is stored exactly once. -/
theorem replicationTokenCreate_spec_witness :
    writeTokOk (replicationTokenCreatePath "performance")
        (replicationTokenCreateData "sec-1" "30m" "") =
      .ok (some ⟨[], some ⟨"wrapped-secret"⟩⟩) ∧
    jlookup ([] : JObj) "Errors" = none ∧
    (replicationTokenCreate "performance" "sec-1" "30m" "" writeTokOk
        (.ok (some statusBodyWithToken))).sets = [("secondary_token", "wrapped-secret")] ∧
    jlookup (replicationTokenCreateData "sec-1" "30m" "") "ttl" = some (JVal.str "30m") ∧
    jlookup (replicationTokenCreateData "sec-1" "30m" "") "secondary_public_key" = none :=
  ⟨rfl, rfl,
   (replicationTokenCreate_spec "performance" "sec-1" "30m" "" writeTokOk
     (.ok (some statusBodyWithToken)) [] "wrapped-secret" rfl rfl).2.1,
   (replicationTokenCreate_spec "performance" "sec-1" "30m" "" writeTokOk
     (.ok (some statusBodyWithToken)) [] "wrapped-secret" rfl rfl).2.2.2.2.1
     (by decide),
   (replicationTokenCreate_spec "performance" "sec-1" "30m" "" writeTokOk
     (.ok (some statusBodyWithToken)) [] "wrapped-secret" rfl rfl).2.2.2.2.2.1 rfl⟩

/- ------------------------------------------------------------------ -/
/- Existence checks (C10)                                             -/
/- ------------------------------------------------------------------ -/

/-- The scan never attaches an error to a normal return. -/
theorem scanSecondaries_ret_none (tid : String) :
    ∀ xs b oe, scanSecondaries tid xs = .ret b oe → oe = none := by
  intro xs
  induction xs with
  | nil =>
    intro b oe h
    simp only [scanSecondaries] at h
    exact ((ExistsResult.ret.inj h).2).symm
  | cons z rest ih =>
    intro b oe h
    unfold scanSecondaries at h
    cases he : scanEntry tid z with
    | error e => rw [he] at h; exact absurd h (by simp)
    | ok bb =>
      rw [he] at h
      cases bb with
      | true => exact ((ExistsResult.ret.inj h).2).symm
      | false => exact ih b oe h

/-- C10: each of the three existence checks returns `(true, error)`
whenever the underlying status read fails at the transport level or the
response carries a non-null `Errors` value, and it returns `false` only
with no error, on a successfully read, error-free response whose content
indicates non-existence (`mode == "disabled"` for the configuration
checks; an exhausted scan for the token check). -/
theorem existsChecks_error_contract :
    (∀ t e, replicationPrimaryExists t (.error e) =
      .ret true (some (.transport ("error checking " ++ t ++ " replication: " ++ e)))) ∧
    (∀ t rd v, dataErrors rd = some v →
      replicationPrimaryExists t (.ok (some rd)) =
        .ret true (some (.remote ("error checking " ++ t ++ " replication") v))) ∧
    (∀ t r oe, replicationPrimaryExists t r = .ret false oe →
      oe = none ∧ ∃ rd, r = .ok (some rd) ∧ dataErrors rd = none ∧
        jlookup rd "mode" = some (JVal.str "disabled")) ∧
    (∀ t e, replicationSecondaryExists t (.error e) =
      .ret true (some (.transport ("error checking " ++ t ++ " replication: " ++ e)))) ∧
    (∀ t rd v, dataErrors rd = some v →
      replicationSecondaryExists t (.ok (some rd)) =
        .ret true (some (.remote ("error checking " ++ t ++ " replication") v))) ∧
    (∀ t r oe, replicationSecondaryExists t r = .ret false oe →
      oe = none ∧ ∃ rd, r = .ok (some rd) ∧ dataErrors rd = none ∧
        jlookup rd "mode" = some (JVal.str "disabled")) ∧
    (∀ t tid e, replicationTokenExists t tid (.error e) =
      .ret true (some (.transport ("error checking replication token: " ++ e)))) ∧
    (∀ t tid rd v, dataErrors rd = some v →
      replicationTokenExists t tid (.ok (some rd)) =
        .ret true (some (.remote "error checking replication token" v))) ∧
    (∀ t tid r oe, replicationTokenExists t tid r = .ret false oe →
      oe = none ∧ ∃ rd, r = .ok (some rd) ∧ dataErrors rd = none) := by
  refine ⟨fun t e => rfl, ?_, ?_, fun t e => rfl, ?_, ?_, fun t tid e => rfl, ?_, ?_⟩
  · intro t rd v h
    simp [replicationPrimaryExists, h]
  · intro t r oe h
    cases r with
    | error e => simp [replicationPrimaryExists] at h
    | ok o =>
      cases o with
      | none => simp [replicationPrimaryExists] at h
      | some rd =>
        cases hd : dataErrors rd with
        | some v => simp [replicationPrimaryExists, hd] at h
        | none =>
          cases hm : isDisabledMode rd with
          | true =>
            simp only [replicationPrimaryExists, hd, hm, if_true] at h
            exact ⟨((ExistsResult.ret.inj h).2).symm,
              rd, rfl, hd, (isDisabledMode_iff rd).mp hm⟩
          | false => simp [replicationPrimaryExists, hd, hm] at h
  · intro t rd v h
    simp [replicationSecondaryExists, h]
  · intro t r oe h
    cases r with
    | error e => simp [replicationSecondaryExists] at h
    | ok o =>
      cases o with
      | none => simp [replicationSecondaryExists] at h
      | some rd =>
        cases hd : dataErrors rd with
        | some v => simp [replicationSecondaryExists, hd] at h
        | none =>
          cases hm : isDisabledMode rd with
          | true =>
            simp only [replicationSecondaryExists, hd, hm, if_true] at h
            exact ⟨((ExistsResult.ret.inj h).2).symm,
              rd, rfl, hd, (isDisabledMode_iff rd).mp hm⟩
          | false => simp [replicationSecondaryExists, hd, hm] at h
  · intro t tid rd v h
    simp [replicationTokenExists, h]
  · intro t tid r oe h
    cases r with
    | error e => simp [replicationTokenExists] at h
    | ok o =>
      cases o with
      | none => simp [replicationTokenExists] at h
      | some rd =>
        cases hd : dataErrors rd with
        | some v => simp [replicationTokenExists, hd] at h
        | none =>
          cases hsec : jlookup rd "secondaries" with
          | none =>
            simp only [replicationTokenExists, hd, hsec] at h
            exact ⟨((ExistsResult.ret.inj h).2).symm, rd, rfl, hd⟩
          | some v =>
            cases v with
            | null =>
              simp only [replicationTokenExists, hd, hsec] at h
              exact ⟨((ExistsResult.ret.inj h).2).symm, rd, rfl, hd⟩
            | arr xs =>
              simp only [replicationTokenExists, hd, hsec] at h
              exact ⟨scanSecondaries_ret_none tid xs false oe h, rd, rfl, hd⟩
            | str s => simp [replicationTokenExists, hd, hsec] at h
            | num n => simp [replicationTokenExists, hd, hsec] at h
            | bool b => simp [replicationTokenExists, hd, hsec] at h
            | obj fs => simp [replicationTokenExists, hd, hsec] at h

/-- Witness: a transport failure yields `(true, error)`; a disabled-mode
body is the only way the primary check returns false; a response carrying
`Errors` makes the token check return `(true, error)`; and a non-matching
scan makes the token check return false with no error. -/
theorem existsChecks_error_contract_witness :
    replicationPrimaryExists "dr" (.error "conn refused") =
      .ret true (some (.transport "error checking dr replication: conn refused")) ∧
    (none = (none : Option RepError) ∧
      ∃ rd, (.ok (some statusBodyDisabled) : Except String (Option JObj)) = .ok (some rd) ∧
        dataErrors rd = none ∧ jlookup rd "mode" = some (JVal.str "disabled")) ∧
    replicationSecondaryExists "performance"
        (.ok (some [("Errors", JVal.str "bad request")])) =
      .ret true (some (.remote "error checking performance replication"
        (JVal.str "bad request"))) ∧
    (none = (none : Option RepError) ∧
      ∃ rd, (.ok (some statusBodyWithToken) : Except String (Option JObj)) = .ok (some rd) ∧
        dataErrors rd = none) :=
  ⟨existsChecks_error_contract.1 "dr" "conn refused",
   existsChecks_error_contract.2.2.1 "dr" (.ok (some statusBodyDisabled)) none rfl,
   existsChecks_error_contract.2.2.2.2.1 "performance"
     [("Errors", JVal.str "bad request")] (JVal.str "bad request") rfl,
   existsChecks_error_contract.2.2.2.2.2.2.2.2 "dr" "sec-2"
     (.ok (some statusBodyWithToken)) none rfl⟩
